import Mathlib

/-!
Shallow embedding of the smartinverter telemetry agent
(src/InvertertoAwsIotCore.py — Modbus-TCP variant, and src/rasp.py —
Modbus-RTU/RS485 variant) together with proofs about the register
decoding rules, the snapshot collection cycle, the device-link connect
operation, and the polling main loop.

Raw 16-bit register words are modelled as natural numbers; the Python
float scale factors are modelled as rationals; Python `None` and the
possibility of a raised exception are modelled explicitly.
-/

/-- An exception a Python expression can raise inside the collection
loop body.  The only statement there that can raise is the unguarded
list indexing `registers[0]` / `registers[1]`. -/
inductive PyError
  | indexError
deriving DecidableEq

/-- A value stored under a field name in the snapshot dict built by
`get_pv_data` (src/InvertertoAwsIotCore.py lines 78-89) and `get_data`
(src/rasp.py lines 65-76): a number (Python float), the raw register
list itself (the `else: value = registers` branch for a count other
than 1 or 2), or Python `None`. -/
inductive PyValue
  | num (q : ℚ)
  | rawList (regs : List ℕ)
  | none
deriving DecidableEq

/-- One entry of the register map dicts: field name, 1-based register
address, register count and scale factor
(src/InvertertoAwsIotCore.py lines 64-76, src/rasp.py lines 57-64). -/
structure RegisterSpec where
  name : String
  address : ℕ
  count : ℕ
  scale : ℚ
deriving DecidableEq

/-- Observable outcome of one call into the underlying pymodbus client:
the call raised an exception, returned a result with
`result.isError()` true, or returned a result carrying a register
word list. -/
inductive ReadOutcome
  | raise
  | modbusError
  | success (regs : List ℕ)
deriving DecidableEq

deriving instance DecidableEq for Except

/-- Behaviour of the underlying Modbus TCP client of
src/InvertertoAwsIotCore.py, as a function of function code, 0-based
start address and register count. -/
def Device : Type := ℕ → ℕ → ℕ → ReadOutcome

/-- Behaviour of the underlying Modbus RTU serial client of src/rasp.py
(only `read_holding_registers` is ever issued), as a function of
0-based start address and register count. -/
def SerialDevice : Type := ℕ → ℕ → ReadOutcome

/-- A Modbus TCP client whose `connect` has never been called:
`self.client` is `None`, so every read attempt raises
`AttributeError` inside `read_registers`
(src/InvertertoAwsIotCore.py lines 23, 44-60). -/
def neverConnectedDevice : Device := fun _ _ _ => ReadOutcome.raise

/-- `HitachiInverterClient.read_registers`
(src/InvertertoAwsIotCore.py lines 44-60): dispatch on the function
code (3 = holding, 4 = input, anything else is logged and returns
`None`); a raised exception is caught, logged and turned into `None`;
an error response is logged and turned into `None`; otherwise the
register word list is returned. -/
def HitachiInverterClient.read_registers (dev : Device)
    (address count function_code : ℕ) : Option (List ℕ) :=
  if function_code = 3 ∨ function_code = 4 then
    match dev function_code address count with
    | ReadOutcome.success regs => some regs
    | ReadOutcome.modbusError => Option.none
    | ReadOutcome.raise => Option.none
  else
    Option.none

/-- `HitachiInverterRS485.read_registers` (src/rasp.py lines 44-53):
always `read_holding_registers`; a raised exception or an error
response is logged and turned into `None`. -/
def HitachiInverterRS485.read_registers (dev : SerialDevice)
    (address count : ℕ) : Option (List ℕ) :=
  match dev address count with
  | ReadOutcome.success regs => some regs
  | ReadOutcome.modbusError => Option.none
  | ReadOutcome.raise => Option.none

/-- The decode block shared verbatim by both variants
(src/InvertertoAwsIotCore.py lines 81-86, src/rasp.py lines 68-73):

  if count == 1:   value = registers[0] * scale
  elif count == 2: value = (registers[0] << 16 | registers[1]) * scale
  else:            value = registers

The list indexing is unguarded, so a missing index raises
`IndexError` out of the block. -/
def decodeValue (count : ℕ) (registers : List ℕ) (scale : ℚ) :
    Except PyError PyValue :=
  if count = 1 then
    match registers.get? 0 with
    | some r0 => Except.ok (PyValue.num (r0 * scale))
    | Option.none => Except.error PyError.indexError
  else if count = 2 then
    match registers.get? 0, registers.get? 1 with
    | some r0, some r1 =>
        Except.ok (PyValue.num ((((r0 <<< 16) ||| r1 : ℕ) : ℚ) * scale))
    | _, _ => Except.error PyError.indexError
  else
    Except.ok (PyValue.rawList registers)

/-- One iteration of the field loop of `get_pv_data`
(src/InvertertoAwsIotCore.py lines 78-89): read (with default
function code 3), then either decode and store under the field name,
or store `None` when the read returned `None`; an `IndexError` from
the decode block propagates. -/
def HitachiInverterClient.fieldEntry (dev : Device) (s : RegisterSpec) :
    Except PyError (String × PyValue) :=
  match HitachiInverterClient.read_registers dev (s.address - 1) s.count 3 with
  | some registers =>
    match decodeValue s.count registers s.scale with
    | Except.ok v => Except.ok (s.name, v)
    | Except.error e => Except.error e
  | Option.none => Except.ok (s.name, PyValue.none)

/-- The field loop of `get_pv_data` over a register map, in map order;
an exception raised while processing one field aborts the whole loop
(there is no handler inside `get_pv_data`). -/
def HitachiInverterClient.collectFields (dev : Device) :
    List RegisterSpec → Except PyError (List (String × PyValue))
  | [] => Except.ok []
  | s :: rest => do
    let e ← HitachiInverterClient.fieldEntry dev s
    let tail ← HitachiInverterClient.collectFields dev rest
    pure (e :: tail)

/-- The literal `registers_map` dict of `get_pv_data`
(src/InvertertoAwsIotCore.py lines 64-76). -/
def registers_map : List RegisterSpec :=
  [ ⟨"dc_voltage", 40001, 1, 1/10⟩,
    ⟨"dc_current", 40002, 1, 1/100⟩,
    ⟨"dc_power", 40003, 2, 1⟩,
    ⟨"ac_voltage", 40010, 1, 1/10⟩,
    ⟨"ac_current", 40011, 1, 1/100⟩,
    ⟨"ac_power", 40012, 2, 1⟩,
    ⟨"frequency", 40015, 1, 1/100⟩,
    ⟨"energy_today", 40020, 2, 1/10⟩,
    ⟨"energy_total", 40022, 2, 1/10⟩,
    ⟨"temperature", 40030, 1, 1/10⟩,
    ⟨"status", 40040, 1, 1⟩ ]

/-- `HitachiInverterClient.get_pv_data`
(src/InvertertoAwsIotCore.py lines 62-91). -/
def HitachiInverterClient.get_pv_data (dev : Device) :
    Except PyError (List (String × PyValue)) :=
  HitachiInverterClient.collectFields dev registers_map

/-- One iteration of the field loop of `get_data`
(src/rasp.py lines 65-76).  The guard is `if regs:` — Python
truthiness — so both `None` and an empty register list store `None`. -/
def HitachiInverterRS485.fieldEntry (dev : SerialDevice) (s : RegisterSpec) :
    Except PyError (String × PyValue) :=
  match HitachiInverterRS485.read_registers dev (s.address - 1) s.count with
  | some regs =>
    if regs.isEmpty then Except.ok (s.name, PyValue.none)
    else
      match decodeValue s.count regs s.scale with
      | Except.ok v => Except.ok (s.name, v)
      | Except.error e => Except.error e
  | Option.none => Except.ok (s.name, PyValue.none)

/-- The field loop of `get_data` over a register map, in map order. -/
def HitachiInverterRS485.collectFields (dev : SerialDevice) :
    List RegisterSpec → Except PyError (List (String × PyValue))
  | [] => Except.ok []
  | s :: rest => do
    let e ← HitachiInverterRS485.fieldEntry dev s
    let tail ← HitachiInverterRS485.collectFields dev rest
    pure (e :: tail)

/-- The literal `registers_map` dict of `get_data`
(src/rasp.py lines 57-64). -/
def rasp_registers_map : List RegisterSpec :=
  [ ⟨"dc_voltage", 40001, 1, 1/10⟩,
    ⟨"dc_current", 40002, 1, 1/100⟩,
    ⟨"ac_voltage", 40010, 1, 1/10⟩,
    ⟨"ac_current", 40011, 1, 1/100⟩,
    ⟨"ac_power", 40012, 2, 1⟩,
    ⟨"frequency", 40015, 1, 1/100⟩ ]

/-- `HitachiInverterRS485.get_data` (src/rasp.py lines 55-77). -/
def HitachiInverterRS485.get_data (dev : SerialDevice) :
    Except PyError (List (String × PyValue)) :=
  HitachiInverterRS485.collectFields dev rasp_registers_map

/-- The mutable state of a `HitachiInverterClient`
(src/InvertertoAwsIotCore.py lines 18-23): `client` is the identity
of the underlying `ModbusTcpClient` object currently bound to
`self.client`, or `none` for the initial `self.client = None`. -/
structure HitachiInverterClientState where
  client : Option ℕ
deriving DecidableEq

/-- `HitachiInverterClient.connect`
(src/InvertertoAwsIotCore.py lines 25-37).  The body unconditionally
executes `self.client = ModbusTcpClient(self.ip_address, port=self.port)`,
rebinding `self.client` to a freshly constructed client object
(identity `freshClient`) whatever the previous state was, and then
returns the result of `self.client.connect()` (`connection`); an
exception is logged and `False` is returned, which the `connection`
flag also covers. -/
def HitachiInverterClient.connect (_st : HitachiInverterClientState)
    (freshClient : ℕ) (connection : Bool) :
    HitachiInverterClientState × Bool :=
  ({ client := some freshClient }, connection)

/-- What happens during one iteration of the `while True` body of
`main` (src/InvertertoAwsIotCore.py lines 160-172, src/rasp.py
lines 111-121): everything completes; collecting or serializing the
snapshot raises; the publish call raises after a successful collect;
or a `KeyboardInterrupt` arrives (modelled at the sleep point, after
a completed publish). -/
inductive CycleEvent
  | ok
  | collectRaises
  | publishRaises
  | interruptDuringSleep
deriving DecidableEq

/-- How the TCP variant's `while True` loop ended: trace exhausted
with the loop still running, left via the `except Exception` handler
(which logs the error), or left via the `except KeyboardInterrupt`
handler. -/
inductive LoopEnd
  | running
  | exceptionCaught
  | interrupted
deriving DecidableEq

/-- The `while True` loop of `main` in src/InvertertoAwsIotCore.py
(lines 159-177).  The `try` block wraps the whole loop, so the first
raising cycle transfers control to the matching handler outside the
loop.  Returns the number of cycles in which a publish was attempted,
and how the loop ended. -/
def mainLoopTCP : List CycleEvent → ℕ × LoopEnd
  | [] => (0, LoopEnd.running)
  | CycleEvent.ok :: rest =>
      let r := mainLoopTCP rest
      (r.1 + 1, r.2)
  | CycleEvent.collectRaises :: _ => (0, LoopEnd.exceptionCaught)
  | CycleEvent.publishRaises :: _ => (1, LoopEnd.exceptionCaught)
  | CycleEvent.interruptDuringSleep :: _ => (1, LoopEnd.interrupted)

/-- How the RS485 variant's `while True` loop ended.  src/rasp.py
(lines 110-126) has only an `except KeyboardInterrupt` handler: any
other exception runs the `finally` block and then propagates out of
`main` uncaught. -/
inductive LoopEndRasp
  | running
  | exceptionUncaught
  | interrupted
deriving DecidableEq

/-- The `while True` loop of `main` in src/rasp.py (lines 110-123). -/
def mainLoopRasp : List CycleEvent → ℕ × LoopEndRasp
  | [] => (0, LoopEndRasp.running)
  | CycleEvent.ok :: rest =>
      let r := mainLoopRasp rest
      (r.1 + 1, r.2)
  | CycleEvent.collectRaises :: _ => (0, LoopEndRasp.exceptionUncaught)
  | CycleEvent.publishRaises :: _ => (1, LoopEndRasp.exceptionUncaught)
  | CycleEvent.interruptDuringSleep :: _ => (1, LoopEndRasp.interrupted)

/-- Process exit status: a Python `main` that returns normally exits
with code 0; an uncaught exception terminates the process with a
non-zero code. -/
inductive ExitStatus
  | exitZero
  | exitNonzero
deriving DecidableEq

/-- The whole `main` of src/InvertertoAwsIotCore.py (lines 118-181):
first `connect_future.result()` (raises on a failed MQTT connect —
uncaught, so non-zero exit), then `inverter.connect()` (on `False`,
logs "Failed to connect to inverter. Exiting." and returns — exit
code 0), then the loop; both loop handlers swallow the exception and
`main` returns normally after the `finally` block, so exit code 0.
`none` means the loop is still running (trace exhausted). -/
def mainTCP (mqttOk devOk : Bool) (trace : List CycleEvent) :
    Option ExitStatus :=
  if mqttOk then
    if devOk then
      match (mainLoopTCP trace).2 with
      | LoopEnd.running => Option.none
      | LoopEnd.exceptionCaught => some ExitStatus.exitZero
      | LoopEnd.interrupted => some ExitStatus.exitZero
    else some ExitStatus.exitZero
  else some ExitStatus.exitNonzero

/-- The whole `main` of src/rasp.py (lines 92-126): first
`inverter.connect()` (on `False`, returns — exit code 0), then
`create_mqtt_client` (raises on a failed connect — uncaught, so
non-zero exit), then the loop; an exception other than
`KeyboardInterrupt` runs the `finally` block and propagates out of
`main`, so non-zero exit. -/
def mainRasp (devOk mqttOk : Bool) (trace : List CycleEvent) :
    Option ExitStatus :=
  if devOk then
    if mqttOk then
      match (mainLoopRasp trace).2 with
      | LoopEndRasp.running => Option.none
      | LoopEndRasp.exceptionUncaught => some ExitStatus.exitNonzero
      | LoopEndRasp.interrupted => some ExitStatus.exitZero
    else some ExitStatus.exitNonzero
  else some ExitStatus.exitZero

/-- The value `get_pv_data` ends up storing for one field when no
exception escapes the decode block: the decoded value on a successful
read, `None` on a failed read.  (The `error` fallback is unreachable
for readings whose length matches the count.) -/
def HitachiInverterClient.fieldValue (dev : Device) (s : RegisterSpec) :
    PyValue :=
  match HitachiInverterClient.read_registers dev (s.address - 1) s.count 3 with
  | Option.none => PyValue.none
  | some regs =>
    match decodeValue s.count regs s.scale with
    | Except.ok v => v
    | Except.error _ => PyValue.none

/-- The value `get_data` ends up storing for one field when no
exception escapes the decode block. -/
def HitachiInverterRS485.fieldValue (dev : SerialDevice) (s : RegisterSpec) :
    PyValue :=
  match HitachiInverterRS485.read_registers dev (s.address - 1) s.count with
  | Option.none => PyValue.none
  | some regs =>
    if regs.isEmpty then PyValue.none
    else
      match decodeValue s.count regs s.scale with
      | Except.ok v => v
      | Except.error _ => PyValue.none

theorem decodeValue_isOk_of_length (regs : List ℕ) (scale : ℚ) :
    ∃ v, decodeValue regs.length regs scale = Except.ok v := by
  match regs with
  | [] => exact ⟨_, rfl⟩
  | [a] => exact ⟨_, rfl⟩
  | [a, b] => exact ⟨_, rfl⟩
  | a :: b :: c :: rest =>
    refine ⟨PyValue.rawList (a :: b :: c :: rest), ?_⟩
    simp only [decodeValue, List.length_cons]
    rw [if_neg (by omega), if_neg (by omega)]

theorem fieldEntryTCP_eq_of_wf (dev : Device)
    (hdev : ∀ fc a c regs, dev fc a c = ReadOutcome.success regs → regs.length = c)
    (s : RegisterSpec) :
    HitachiInverterClient.fieldEntry dev s =
      Except.ok (s.name, HitachiInverterClient.fieldValue dev s) := by
  unfold HitachiInverterClient.fieldEntry HitachiInverterClient.fieldValue
  rcases hread : HitachiInverterClient.read_registers dev (s.address - 1) s.count 3 with _ | regs
  · rfl
  · have hlen : regs.length = s.count := by
      unfold HitachiInverterClient.read_registers at hread
      rw [if_pos (Or.inl rfl)] at hread
      rcases hout : dev 3 (s.address - 1) s.count with _ | _ | regs2
      all_goals rw [hout] at hread
      · cases hread
      · cases hread
      · cases hread
        exact hdev 3 (s.address - 1) s.count regs hout
    obtain ⟨v, hv⟩ := hlen ▸ decodeValue_isOk_of_length regs s.scale
    simp only [hv]

theorem collectFieldsTCP_eq_of_wf (dev : Device)
    (hdev : ∀ fc a c regs, dev fc a c = ReadOutcome.success regs → regs.length = c) :
    ∀ map : List RegisterSpec,
      HitachiInverterClient.collectFields dev map =
        Except.ok (map.map fun s => (s.name, HitachiInverterClient.fieldValue dev s))
  | [] => rfl
  | s :: rest => by
    rw [HitachiInverterClient.collectFields, List.map_cons,
      fieldEntryTCP_eq_of_wf dev hdev s,
      collectFieldsTCP_eq_of_wf dev hdev rest]
    rfl

theorem fieldEntryRasp_eq_of_wf (dev : SerialDevice)
    (hdev : ∀ a c regs, dev a c = ReadOutcome.success regs → regs.length = c)
    (s : RegisterSpec) :
    HitachiInverterRS485.fieldEntry dev s =
      Except.ok (s.name, HitachiInverterRS485.fieldValue dev s) := by
  unfold HitachiInverterRS485.fieldEntry HitachiInverterRS485.fieldValue
  rcases hread : HitachiInverterRS485.read_registers dev (s.address - 1) s.count with _ | regs
  · rfl
  · have hlen : regs.length = s.count := by
      unfold HitachiInverterRS485.read_registers at hread
      rcases hout : dev (s.address - 1) s.count with _ | _ | regs2
      all_goals rw [hout] at hread
      · cases hread
      · cases hread
      · cases hread
        exact hdev (s.address - 1) s.count regs hout
    rcases hemp : regs.isEmpty with _ | _
    · obtain ⟨v, hv⟩ := hlen ▸ decodeValue_isOk_of_length regs s.scale
      simp only [hemp, hv, Bool.false_eq_true, if_false]
    · simp only [hemp, if_true]

theorem collectFieldsRasp_eq_of_wf (dev : SerialDevice)
    (hdev : ∀ a c regs, dev a c = ReadOutcome.success regs → regs.length = c) :
    ∀ map : List RegisterSpec,
      HitachiInverterRS485.collectFields dev map =
        Except.ok (map.map fun s => (s.name, HitachiInverterRS485.fieldValue dev s))
  | [] => rfl
  | s :: rest => by
    rw [HitachiInverterRS485.collectFields, List.map_cons,
      fieldEntryRasp_eq_of_wf dev hdev s,
      collectFieldsRasp_eq_of_wf dev hdev rest]
    rfl

/-- C1 counterexample: the `try` block wraps the whole `while True`
loop in both variants, so a publish that raises on the first cycle
ends the loop: only one publish is ever attempted even though the
trace holds a second, healthy cycle — the claim would require two. -/
theorem loop_stops_after_publish_error :
    mainLoopTCP [CycleEvent.publishRaises, CycleEvent.ok] = (1, LoopEnd.exceptionCaught)
    ∧ (mainLoopTCP [CycleEvent.publishRaises, CycleEvent.ok]).1 ≠ 2
    ∧ mainLoopRasp [CycleEvent.publishRaises, CycleEvent.ok] =
        (1, LoopEndRasp.exceptionUncaught) := by
  decide

/-- C1 amended: an error raised inside a cycle always ends the loop —
no later cycle is attempted.  In the TCP variant the error is caught
by the `except Exception` handler, logged, and `main` shuts down and
returns (exit code 0); in the RS485 variant there is no such handler
and the error propagates out of `main` (non-zero exit) after the
`finally` block disconnects both links. -/
theorem cycle_error_ends_loop (rest : List CycleEvent) :
    mainLoopTCP (CycleEvent.publishRaises :: rest) = (1, LoopEnd.exceptionCaught)
    ∧ mainLoopTCP (CycleEvent.collectRaises :: rest) = (0, LoopEnd.exceptionCaught)
    ∧ mainLoopRasp (CycleEvent.publishRaises :: rest) = (1, LoopEndRasp.exceptionUncaught)
    ∧ mainLoopRasp (CycleEvent.collectRaises :: rest) = (0, LoopEndRasp.exceptionUncaught)
    ∧ mainTCP true true (CycleEvent.publishRaises :: rest) = some ExitStatus.exitZero
    ∧ mainRasp true true (CycleEvent.publishRaises :: rest) = some ExitStatus.exitNonzero :=
  ⟨rfl, rfl, rfl, rfl, rfl, rfl⟩

/-- C2: for a two-register spec the decoded value is
`((hi << 16) | lo) * scale`; with the low word in 16-bit range this
composition places the first word in the high-order 16 bits
(`hi * 2^16 + lo`), and decoding `[0x0001, 0x0002]` at scale 1 gives
65538. -/
theorem decode_two_registers (hi lo : ℕ) (scale : ℚ) (hlo : lo < 2 ^ 16) :
    decodeValue 2 [hi, lo] scale =
      Except.ok (PyValue.num ((((hi <<< 16) ||| lo : ℕ) : ℚ) * scale))
    ∧ ((hi <<< 16) ||| lo : ℕ) = hi * 2 ^ 16 + lo
    ∧ decodeValue 2 [1, 2] 1 = Except.ok (PyValue.num 65538) := by
  refine ⟨rfl, ?_, ?_⟩
  · rw [Nat.shiftLeft_eq, Nat.mul_comm hi (2 ^ 16)]
    exact (Nat.mul_add_lt_is_or hlo hi).symm
  · have h : (1 <<< 16 ||| 2 : ℕ) = 65538 := by decide
    simp [decodeValue, h]

theorem decode_two_registers_witness :
    decodeValue 2 [1, 2] 1 = Except.ok (PyValue.num 65538) :=
  (decode_two_registers 1 2 1 (by decide)).2.2

/-- C3: for a single-register spec the decoded value is
`raw[0] * scale`, including the degenerate cases `scale = 0` and
`raw[0] = 0`. -/
theorem decode_single_register (r : ℕ) (scale : ℚ) :
    decodeValue 1 [r] scale = Except.ok (PyValue.num (r * scale))
    ∧ decodeValue 1 [r] 0 = Except.ok (PyValue.num 0)
    ∧ decodeValue 1 [0] scale = Except.ok (PyValue.num 0) := by
  refine ⟨rfl, ?_, ?_⟩ <;> simp [decodeValue]

/-- C4: for readings whose length matches the requested count, one
collection cycle (in either variant) returns a snapshot whose keys
are exactly the map's field names in order — one entry per spec —
and every field whose read failed is present with value `None`. -/
theorem snapshot_one_entry_per_spec
    (map : List RegisterSpec) (dev : Device) (sdev : SerialDevice)
    (hdev : ∀ fc a c regs, dev fc a c = ReadOutcome.success regs → regs.length = c)
    (hsdev : ∀ a c regs, sdev a c = ReadOutcome.success regs → regs.length = c) :
    (∃ snap, HitachiInverterClient.collectFields dev map = Except.ok snap ∧
        snap.map Prod.fst = map.map RegisterSpec.name ∧
        ∀ s ∈ map,
          HitachiInverterClient.read_registers dev (s.address - 1) s.count 3 = Option.none →
          (s.name, PyValue.none) ∈ snap)
    ∧ (∃ snap, HitachiInverterRS485.collectFields sdev map = Except.ok snap ∧
        snap.map Prod.fst = map.map RegisterSpec.name ∧
        ∀ s ∈ map,
          HitachiInverterRS485.read_registers sdev (s.address - 1) s.count = Option.none →
          (s.name, PyValue.none) ∈ snap) := by
  constructor
  · refine ⟨_, collectFieldsTCP_eq_of_wf dev hdev map, ?_, ?_⟩
    · rw [List.map_map]
      rfl
    · intro s hs hnone
      have hval : HitachiInverterClient.fieldValue dev s = PyValue.none := by
        unfold HitachiInverterClient.fieldValue
        rw [hnone]
      have hmem :=
        List.mem_map_of_mem (fun t => (t.name, HitachiInverterClient.fieldValue dev t)) hs
      simp only [hval] at hmem
      exact hmem
  · refine ⟨_, collectFieldsRasp_eq_of_wf sdev hsdev map, ?_, ?_⟩
    · rw [List.map_map]
      rfl
    · intro s hs hnone
      have hval : HitachiInverterRS485.fieldValue sdev s = PyValue.none := by
        unfold HitachiInverterRS485.fieldValue
        rw [hnone]
      have hmem :=
        List.mem_map_of_mem (fun t => (t.name, HitachiInverterRS485.fieldValue sdev t)) hs
      simp only [hval] at hmem
      exact hmem

theorem snapshot_one_entry_per_spec_witness :
    ∃ snap, HitachiInverterClient.collectFields neverConnectedDevice registers_map =
        Except.ok snap ∧
      snap.map Prod.fst = registers_map.map RegisterSpec.name := by
  obtain ⟨⟨snap, h1, h2, _⟩, _⟩ :=
    snapshot_one_entry_per_spec registers_map neverConnectedDevice
      (fun _ _ => ReadOutcome.raise)
      (by intro fc a c regs h; simp [neverConnectedDevice] at h)
      (by intro a c regs h; simp at h)
  exact ⟨snap, h1, h2⟩

/-- C5: with the device link never connected (`self.client` still
`None`, so every pymodbus call raises and `read_registers` returns
`None`), one collection cycle returns — without raising — a snapshot
in which every one of the eleven fields is `None`. -/
theorem collect_never_connected_all_absent :
    HitachiInverterClient.get_pv_data neverConnectedDevice =
      Except.ok [("dc_voltage", PyValue.none), ("dc_current", PyValue.none),
        ("dc_power", PyValue.none), ("ac_voltage", PyValue.none),
        ("ac_current", PyValue.none), ("ac_power", PyValue.none),
        ("frequency", PyValue.none), ("energy_today", PyValue.none),
        ("energy_total", PyValue.none), ("temperature", PyValue.none),
        ("status", PyValue.none)] := by
  rfl

/-- C6: in both variants, a field whose read returned `None` is stored
as the explicit `None` marker — for any scale and any count — and
`None` is not the number 0. -/
theorem failed_read_stored_absent (dev : Device) (sdev : SerialDevice) (s : RegisterSpec)
    (h : HitachiInverterClient.read_registers dev (s.address - 1) s.count 3 = Option.none)
    (hs : HitachiInverterRS485.read_registers sdev (s.address - 1) s.count = Option.none) :
    HitachiInverterClient.fieldEntry dev s = Except.ok (s.name, PyValue.none)
    ∧ HitachiInverterRS485.fieldEntry sdev s = Except.ok (s.name, PyValue.none)
    ∧ PyValue.none ≠ PyValue.num 0 := by
  refine ⟨?_, ?_, by decide⟩
  · unfold HitachiInverterClient.fieldEntry
    rw [h]
  · unfold HitachiInverterRS485.fieldEntry
    rw [hs]

theorem failed_read_stored_absent_witness :
    HitachiInverterClient.fieldEntry neverConnectedDevice ⟨"dc_voltage", 40001, 1, 1/10⟩ =
      Except.ok ("dc_voltage", PyValue.none) :=
  (failed_read_stored_absent neverConnectedDevice (fun _ _ => ReadOutcome.raise)
    ⟨"dc_voltage", 40001, 1, 1/10⟩ rfl rfl).1

/-- C7 counterexample: calling `connect` on an already-connected
client is not a frame-preserving no-op: the body rebinds
`self.client` to a freshly constructed `ModbusTcpClient` (identity 1
here), discarding the previously connected client (identity 0). -/
theorem connect_not_noop_when_connected :
    (HitachiInverterClient.connect ⟨some 0⟩ 1 true).1 ≠ ⟨some 0⟩
    ∧ (HitachiInverterClient.connect ⟨some 0⟩ 1 true).2 = true := by
  refine ⟨?_, rfl⟩
  decide

/-- C7 amended: whatever the previous state — connected or not —
`connect` replaces the stored client with the newly constructed one
and returns that new connection attempt's result; it never leaves an
existing connection's client in place. -/
theorem connect_always_rebinds_client (st : HitachiInverterClientState)
    (freshClient : ℕ) (connection : Bool) :
    (HitachiInverterClient.connect st freshClient connection).1.client = some freshClient
    ∧ (HitachiInverterClient.connect st freshClient connection).2 = connection :=
  ⟨rfl, rfl⟩

/-- C8 counterexample: a spec with count 3 — neither 1 nor 2 — is
carried straight into a read cycle (there is no construction-time
validation anywhere in the code), and the read-time decode path
handles it via its `else` branch, storing the raw register list. -/
theorem invalid_count_reaches_read_cycle :
    HitachiInverterClient.collectFields (fun _ _ _ => ReadOutcome.success [1, 2, 3])
        [⟨"x", 40001, 3, 1⟩] = Except.ok [("x", PyValue.rawList [1, 2, 3])] := by
  decide

/-- C8 amended: the code performs no startup validation of register
counts; a spec with a count other than 1 or 2 reaches the read cycle,
where the decode block's `else` branch stores the raw register list
unchanged.  In the two shipped register maps every count is 1 or 2,
so that branch is unreachable in practice. -/
theorem no_startup_count_validation :
    (registers_map.all fun s => s.count == 1 || s.count == 2) = true
    ∧ (rasp_registers_map.all fun s => s.count == 1 || s.count == 2) = true
    ∧ decodeValue 3 [1, 2, 3] 1 = Except.ok (PyValue.rawList [1, 2, 3])
    ∧ HitachiInverterClient.collectFields (fun _ _ _ => ReadOutcome.success [9, 9, 9])
        [⟨"bad", 40001, 3, 1⟩] = Except.ok [("bad", PyValue.rawList [9, 9, 9])] := by
  decide

/-- C9 counterexample: a failed device-link connect at startup makes
`main` log and `return`, so the process exits with code 0 — the same
code as a clean shutdown, not the non-zero code the claim requires —
in both variants. -/
theorem startup_device_failure_exits_zero :
    mainTCP true false [] = some ExitStatus.exitZero
    ∧ mainRasp false true [] = some ExitStatus.exitZero
    ∧ ExitStatus.exitZero ≠ ExitStatus.exitNonzero := by
  decide

/-- C9 amended: a failed transport-publisher connect at startup raises
out of `main` and the process exits non-zero; a failed device-link
connect is logged and `main` returns normally, exiting 0 —
indistinguishable from a clean shutdown; an operator interrupt during
the run exits 0 in both variants. -/
theorem startup_and_shutdown_exit_codes (devOk mqttOk : Bool) (trace : List CycleEvent) :
    mainTCP false devOk trace = some ExitStatus.exitNonzero
    ∧ mainTCP true false trace = some ExitStatus.exitZero
    ∧ mainTCP true true (CycleEvent.interruptDuringSleep :: trace) = some ExitStatus.exitZero
    ∧ mainRasp false mqttOk trace = some ExitStatus.exitZero
    ∧ mainRasp true false trace = some ExitStatus.exitNonzero
    ∧ mainRasp true true (CycleEvent.interruptDuringSleep :: trace) = some ExitStatus.exitZero :=
  ⟨rfl, rfl, rfl, rfl, rfl, rfl⟩

/-- C10: the decode block indexes the raw word list without any bounds
guard or handler.  Under the precondition that every successful
reading has length equal to the requested count, the accesses are in
bounds and a collection cycle cannot raise; but a device returning a
reading shorter than the count ([5] for the two-register `dc_power`
spec) makes the unguarded `registers[1]` raise an `IndexError` out of
the whole cycle instead of storing `None`. -/
theorem decode_unguarded_indexing :
    (∀ dev : Device,
        (∀ fc a c regs, dev fc a c = ReadOutcome.success regs → regs.length = c) →
        (HitachiInverterClient.get_pv_data dev).isOk = true)
    ∧ HitachiInverterClient.get_pv_data (fun _ _ _ => ReadOutcome.success [5]) =
        Except.error PyError.indexError := by
  constructor
  · intro dev hdev
    rw [HitachiInverterClient.get_pv_data,
      collectFieldsTCP_eq_of_wf dev hdev]
    rfl
  · decide

theorem decode_unguarded_indexing_witness :
    (HitachiInverterClient.get_pv_data
        (fun _ _ c => ReadOutcome.success (List.replicate c 0))).isOk = true :=
  decode_unguarded_indexing.1 (fun _ _ c => ReadOutcome.success (List.replicate c 0))
    (by intro fc a c regs h; cases h; simp)
